import Mathlib

/-!
Verification development for the notion-pdf-export repository.

The definitions below are shallow embeddings, translated from the
TypeScript sources:

* `server/src/services/templateRenderer.ts` — rich text composition
  (`renderRichText`), block rendering (`renderBlock`), list grouping
  (`groupLists`), block-sequence rendering (`renderBlocks`), `getStyles`.
* `server/src/services/pdfGenerator.ts` / `authService.ts` (second
  document in the file) — `generateLetterheadHtml`,
  `generatePropertiesHtml`, `generatePageHtmlDocument`,
  `generateDatabaseHtmlDocument`, `generateHtmlDocument`.
* `client/src/components/PreviewDocument.tsx` —
  `generateDatabaseTableHtml`, `escapeHtml`.
* the PDF routes file (`routes/pdf.ts`) — the `POST /api/pdf/batch`
  handler loop (`batchLoop`, `batchHandler`).

JavaScript strings are modelled as Lean `String`; machine-level string
primitives used by the source (`includes`, `startsWith`, `trim`,
template-literal interpolation) are modelled by the executable list-based
helpers defined first.  A JavaScript value that may be `undefined`/`null`
is modelled as an `Option`; JavaScript string truthiness (`""` is falsy)
is modelled by `isTruthy`/`orDefault`.
-/

/-- List-level prefix test (same result as `String.isPrefixOf` on the
underlying character lists). -/
def isPrefixList : List Char → List Char → Bool
  | [], _ => true
  | _ :: _, [] => false
  | a :: as, b :: bs => a == b && isPrefixList as bs

/-- Substring occurrence test over the underlying character lists. -/
def containsAux (needle : List Char) : List Char → Bool
  | [] => isPrefixList needle []
  | c :: rest => isPrefixList needle (c :: rest) || containsAux needle rest

/-- Model of JavaScript `hay.includes(needle)`. -/
def containsStr (hay needle : String) : Bool :=
  containsAux needle.data hay.data

/-- Model of JavaScript `s.startsWith(p)`. -/
def startsWithStr (s p : String) : Bool :=
  isPrefixList p.data s.data

/-- Whitespace characters relevant to `String.prototype.trim` for the
fragments produced by the renderer (space, tab, newline, carriage
return). -/
def isWhitespaceChar (c : Char) : Bool :=
  c == ' ' || c == '\t' || c == '\n' || c == '\r'

/-- Model of JavaScript `s.trim()`. -/
def trimStr (s : String) : String :=
  String.mk (((s.data.dropWhile isWhitespaceChar).reverse.dropWhile isWhitespaceChar).reverse)

/-- Model of JavaScript `array.join` with the empty separator. -/
def joinStrings : List String → String
  | [] => ""
  | s :: rest => s ++ joinStrings rest

/-- Model of JavaScript `array.join(sep)`. -/
def joinWith (sep : String) : List String → String
  | [] => ""
  | [s] => s
  | s :: rest => s ++ sep ++ joinWith sep rest

/-- Model of the JavaScript idiom `value || dflt` on an optional string:
`undefined`, `null` and the empty string all fall back to the default. -/
def orDefault (s : Option String) (dflt : String) : String :=
  match s with
  | none => dflt
  | some v => if v = "" then dflt else v

/-- Model of JavaScript truthiness of an optional string field. -/
def isTruthy (s : Option String) : Bool :=
  match s with
  | none => false
  | some v => v != ""

/-- The string value of an optional field (empty when absent). -/
def strVal (s : Option String) : String :=
  s.getD ""

/-- Annotation flags of a rich text item
(`templateRenderer.ts`, `RichTextItemResponse.annotations`). -/
structure TextAnnotations where
  bold : Bool
  italic : Bool
  strikethrough : Bool
  underline : Bool
  code : Bool
deriving Repr, DecidableEq

/-- One rich text item (`templateRenderer.ts`, `RichTextItemResponse`):
`plain_text` (absent modelled as `""`), the annotation flags, and the
optional `href`. -/
structure TextItem where
  plain_text : String
  annotations : TextAnnotations
  href : Option String
deriving Repr, DecidableEq

/-- Body of the `map` callback in `renderRichText`
(`templateRenderer.ts` lines 29-54): sequentially wraps the text in
`<strong>`, `<em>`, `<s>`, `<u>`, `<code>` when the corresponding
annotation is set, then wraps the result in a link when `href` is
truthy. -/
def renderTextItem (textItem : TextItem) : String :=
  let text := textItem.plain_text
  let text := if textItem.annotations.bold then "<strong>" ++ text ++ "</strong>" else text
  let text := if textItem.annotations.italic then "<em>" ++ text ++ "</em>" else text
  let text := if textItem.annotations.strikethrough then "<s>" ++ text ++ "</s>" else text
  let text := if textItem.annotations.underline then "<u>" ++ text ++ "</u>" else text
  let text := if textItem.annotations.code then "<code>" ++ text ++ "</code>" else text
  if isTruthy textItem.href then "<a href=\"" ++ strVal textItem.href ++ "\">" ++ text ++ "</a>"
  else text

/-- `renderRichText` (`templateRenderer.ts` lines 24-56): the empty
array yields `""`; otherwise the items are rendered and joined.  The
early return for a null/empty array agrees with mapping and joining the
empty list. -/
def renderRichText (richTextArray : List TextItem) : String :=
  joinStrings (richTextArray.map renderTextItem)

/-- Payload of a `to_do` block (`block.to_do`). -/
structure ToDoData where
  rich_text : List TextItem
  checked : Bool
deriving Repr, DecidableEq

/-- Payload of a `code` block (`block.code`); `language` is optional
(the source falls back to the plaintext default via `||`). -/
structure CodeData where
  rich_text : List TextItem
  language : Option String
deriving Repr, DecidableEq

/-- Payload of a `callout` block (`block.callout`); `icon` is `some e`
when the icon is an emoji `e`, `none` otherwise (the source falls back
to the default glyph for a missing or non-emoji icon). -/
structure CalloutData where
  rich_text : List TextItem
  icon : Option String
deriving Repr, DecidableEq

/-- A content block as dispatched on by `renderBlock`
(`templateRenderer.ts` lines 61-163).  The source receives untyped API
data: for each supported kind the payload object (`block.paragraph`,
`block.to_do`, ...) may be absent at runtime, in which case the field
access in the corresponding `case` arm throws; this is modelled by an
`Option` payload.  `unsupported tag` covers the kinds enumerated in the
explicit fall-through arm (`image`, `video`, ..., `audio`); `unknown
tag` is the `default` arm. -/
inductive Block where
  | paragraph (payload : Option (List TextItem))
  | heading_1 (payload : Option (List TextItem))
  | heading_2 (payload : Option (List TextItem))
  | heading_3 (payload : Option (List TextItem))
  | bulleted_list_item (payload : Option (List TextItem))
  | numbered_list_item (payload : Option (List TextItem))
  | to_do (payload : Option ToDoData)
  | toggle (payload : Option (List TextItem))
  | code (payload : Option CodeData)
  | quote (payload : Option (List TextItem))
  | callout (payload : Option CalloutData)
  | divider
  | unsupported (tag : String)
  | unknown (tag : String)
deriving Repr, DecidableEq

/-- The generic error placeholder produced by the `catch` in
`renderBlock`. -/
def errorPlaceholder : String := "<!-- Error rendering block -->"

/-- The `switch` body of `renderBlock` (`templateRenderer.ts` lines
69-158), before the surrounding `try`/`catch`: each arm either produces
its fragment (`Except.ok`) or throws (`Except.error ()`, modelling the
`TypeError` raised when the payload object of the block is absent). -/
def renderBlockBody : Block → Except Unit String
  | .paragraph none => .error ()
  | .paragraph (some rt) =>
      let content := renderRichText rt
      .ok (if content ≠ "" then "<p>" ++ content ++ "</p>" else "<p><br/></p>")
  | .heading_1 none => .error ()
  | .heading_1 (some rt) => .ok ("<h1>" ++ renderRichText rt ++ "</h1>")
  | .heading_2 none => .error ()
  | .heading_2 (some rt) => .ok ("<h2>" ++ renderRichText rt ++ "</h2>")
  | .heading_3 none => .error ()
  | .heading_3 (some rt) => .ok ("<h3>" ++ renderRichText rt ++ "</h3>")
  | .bulleted_list_item none => .error ()
  | .bulleted_list_item (some rt) => .ok ("<li>" ++ renderRichText rt ++ "</li>")
  | .numbered_list_item none => .error ()
  | .numbered_list_item (some rt) => .ok ("<li class=\"numbered\">" ++ renderRichText rt ++ "</li>")
  | .to_do none => .error ()
  | .to_do (some d) =>
      let content := renderRichText d.rich_text
      let checked := if d.checked then "checked" else ""
      .ok ("<div class=\"todo\"><input type=\"checkbox\" " ++ checked ++ " disabled /> " ++ content ++ "</div>")
  | .toggle none => .error ()
  | .toggle (some rt) => .ok ("<details><summary>" ++ renderRichText rt ++ "</summary></details>")
  | .code none => .error ()
  | .code (some d) =>
      let language := orDefault d.language "plaintext"
      .ok ("<pre><code class=\"language-" ++ language ++ "\">" ++ renderRichText d.rich_text ++ "</code></pre>")
  | .quote none => .error ()
  | .quote (some rt) => .ok ("<blockquote>" ++ renderRichText rt ++ "</blockquote>")
  | .callout none => .error ()
  | .callout (some d) =>
      let icon := d.icon.getD "💡"
      .ok ("<div class=\"callout\"><span class=\"callout-icon\">" ++ icon ++ "</span><div>" ++ renderRichText d.rich_text ++ "</div></div>")
  | .divider => .ok "<hr />"
  | .unsupported tag => .ok ("<!-- Unsupported block type: " ++ tag ++ " -->")
  | .unknown tag => .ok ("<!-- Unknown block type: " ++ tag ++ " -->")

/-- `renderBlock` (`templateRenderer.ts` lines 61-163): the `switch`
body wrapped in the `try`/`catch` that replaces any thrown fault by the
generic error placeholder. -/
def renderBlock (block : Block) : String :=
  match renderBlockBody block with
  | .ok s => s
  | .error _ => errorPlaceholder

/-- The marker `groupLists` looks for to recognize a numbered list
item. -/
def numberedMarker : String := "<li class=\"numbered\">"

/-- The two list container kinds of `groupLists` (`ul` or `ol`). -/
inductive ListKind where
  | ul
  | ol
deriving Repr, DecidableEq

/-- The tag name of a list container. -/
def listTag : ListKind → String
  | .ul => "ul"
  | .ol => "ol"

/-- The classification performed by the `if`/`else if` chain in
`groupLists` (`templateRenderer.ts` lines 173-193): a fragment
containing `<li class="numbered">` is a numbered item, else one starting
with `<li>` is a bulleted item, else it is not a list item. -/
def classify (block : String) : Option ListKind :=
  if containsStr block numberedMarker then some .ol
  else if startsWithStr block "<li>" then some .ul
  else none

/-- Emission of a closed list container:
`result.push` of the container tag wrapping the joined buffered items. -/
def renderListContainer (t : ListKind) (items : List String) : String :=
  "<" ++ listTag t ++ ">" ++ joinStrings items ++ "</" ++ listTag t ++ ">"

/-- The loop of `groupLists` (`templateRenderer.ts` lines 168-208).
The first argument is the loop state `currentList` (`none` when
`currentList.type` is `null`, otherwise the open kind and its buffered
items); the trailing flush after the loop is the `[]` case. -/
def groupListsAux : Option (ListKind × List String) → List String → List String
  | none, [] => []
  | some (t, items), [] => [renderListContainer t items]
  | none, block :: rest =>
    match classify block with
    | some k => groupListsAux (some (k, [block])) rest
    | none => block :: groupListsAux none rest
  | some (t, items), block :: rest =>
    match classify block with
    | some k =>
      if k = t then groupListsAux (some (t, items ++ [block])) rest
      else renderListContainer t items :: groupListsAux (some (k, [block])) rest
    | none => renderListContainer t items :: block :: groupListsAux none rest

/-- `groupLists` (`templateRenderer.ts` lines 168-209): the loop started
with no open list. -/
def groupLists (htmlBlocks : List String) : List String :=
  groupListsAux none htmlBlocks

/-- `renderBlocks` (`templateRenderer.ts` lines 214-218): render each
block, drop blank fragments, group lists, join with newlines. -/
def renderBlocks (blocks : List Block) : String :=
  let htmlBlocks := (blocks.map renderBlock).filter (fun html => trimStr html ≠ "")
  let groupedBlocks := groupLists htmlBlocks
  joinWith "\n" groupedBlocks

/-- `getStyles` (`templateRenderer.ts` lines 223-337): the fixed
stylesheet for rendered page content. -/
def getStyles : String :=
  "\n    <style>\n      * \x7b\n        margin: 0;\n        padding: 0;\n        box-sizing: border-box;\n      \x7d\n\n      body \x7b\n        font-family: -apple-system, BlinkMacSystemFont, \x27Segoe UI\x27, \x27Roboto\x27, \x27Helvetica\x27, \x27Arial\x27, sans-serif;\n        font-size: 14px;\n        line-height: 1.6;\n        color: #37352f;\n      \x7d\n\n      h1 \x7b\n        font-size: 2em;\n        font-weight: 700;\n        margin: 1em 0 0.5em 0;\n        line-height: 1.2;\n      \x7d\n\n      h2 \x7b\n        font-size: 1.5em;\n        font-weight: 600;\n        margin: 0.8em 0 0.4em 0;\n        line-height: 1.3;\n      \x7d\n\n      h3 \x7b\n        font-size: 1.25em;\n        font-weight: 600;\n        margin: 0.6em 0 0.3em 0;\n        line-height: 1.4;\n      \x7d\n\n      p \x7b\n        margin: 0.5em 0;\n      \x7d\n\n      ul, ol \x7b\n        margin: 0.5em 0;\n        padding-left: 1.5em;\n      \x7d\n\n      li \x7b\n        margin: 0.25em 0;\n      \x7d\n\n      code \x7b\n        background: #f3f3f1;\n        color: #eb5757;\n        padding: 2px 4px;\n        border-radius: 3px;\n        font-family: \x27SF Mono\x27, Monaco, \x27Cascadia Code\x27, \x27Roboto Mono\x27, Consolas, \x27Courier New\x27, monospace;\n        font-size: 0.9em;\n      \x7d\n\n      pre \x7b\n        background: #f7f6f3;\n        border: 1px solid #e9e9e7;\n        border-radius: 3px;\n        padding: 1em;\n        margin: 0.5em 0;\n        overflow-x: auto;\n      \x7d\n\n      pre code \x7b\n        background: transparent;\n        color: inherit;\n        padding: 0;\n      \x7d\n\n      blockquote \x7b\n        border-left: 3px solid #d3d3d3;\n        padding-left: 1em;\n        margin: 0.5em 0;\n        color: #6b6b6b;\n      \x7d\n\n      hr \x7b\n        border: none;\n        border-top: 1px solid #e9e9e7;\n        margin: 1.5em 0;\n      \x7d\n\n      a \x7b\n        color: #0066cc;\n        text-decoration: underline;\n      \x7d\n\n      .callout \x7b\n        display: flex;\n        background: #f7f6f3;\n        border-radius: 3px;\n        padding: 1em;\n        margin: 0.5em 0;\n      \x7d\n\n      .callout-icon \x7b\n        font-size: 1.2em;\n        margin-right: 0.5em;\n      \x7d\n\n      .todo \x7b\n        margin: 0.25em 0;\n      \x7d\n\n      .todo input[type=\"checkbox\"] \x7b\n        margin-right: 0.5em;\n      \x7d\n    </style>\n  "

/-- `LetterheadData` (`pdfGenerator.ts` / `authService.ts`): optional
logo URL, required company name, optional address/phone/email.  Optional
fields are `Option` (absent) and the source tests them with JavaScript
truthiness. -/
structure LetterheadData where
  logoUrl : Option String
  companyName : String
  address : Option String
  phone : Option String
  email : Option String
deriving Repr, DecidableEq

/-- `generateLetterheadHtml` (`pdfGenerator.ts` lines 27-45, identical in
`authService.ts` lines 130-148): the letterhead template literal.  Every
interpolated field is embedded verbatim; the separator between phone and
email is the three-character sequence U+00E2 U+20AC U+00A2 exactly as it
appears in the source file. -/
def generateLetterheadHtml (letterhead : LetterheadData) : String :=
  "\n    <div class=\"letterhead\">\n      <div class=\"letterhead-content\">\n        "
  ++ (if isTruthy letterhead.logoUrl then
        "<img src=\"" ++ strVal letterhead.logoUrl ++ "\" alt=\"Logo\" class=\"letterhead-logo\" />"
      else "")
  ++ "\n        <div class=\"letterhead-info\">\n          <div class=\"company-name\">"
  ++ letterhead.companyName
  ++ "</div>\n          "
  ++ (if isTruthy letterhead.address then
        "<div class=\"contact-line\">" ++ strVal letterhead.address ++ "</div>"
      else "")
  ++ "\n          <div class=\"contact-line\">\n            "
  ++ (if isTruthy letterhead.phone then "<span>" ++ strVal letterhead.phone ++ "</span>" else "")
  ++ "\n            "
  ++ (if isTruthy letterhead.phone && isTruthy letterhead.email then " \u00E2\u20AC\u00A2 " else "")
  ++ "\n            "
  ++ (if isTruthy letterhead.email then "<span>" ++ strVal letterhead.email ++ "</span>" else "")
  ++ "\n          </div>\n        </div>\n      </div>\n      <div class=\"letterhead-divider\"></div>\n    </div>\n  "

/-- `generatePropertiesHtml` (`pdfGenerator.ts` lines 50-80, identical in
`authService.ts` lines 153-183): properties are modelled as an ordered
association list (JavaScript object key order); entries whose key is
hidden or equals `"title"` are filtered out; when nothing is visible (or
the map is empty) the result is the empty string. -/
def generatePropertiesHtml (properties : List (String × String)) (hiddenProperties : List String) : String :=
  if properties.isEmpty then ""
  else
    let visibleProperties := properties.filter
      (fun kv => ¬ hiddenProperties.contains kv.1 ∧ kv.1 ≠ "title")
    if visibleProperties.isEmpty then ""
    else
      let propertyRows := joinStrings (visibleProperties.map (fun kv =>
        "\n      <div class=\"property-row\">\n        <span class=\"property-label\">"
        ++ kv.1 ++ ":</span>\n        <span class=\"property-value\">" ++ kv.2
        ++ "</span>\n      </div>\n    "))
      "\n    <div class=\"properties-section\">\n      " ++ propertyRows ++ "\n    </div>\n  "

/-- `PagePdfGenerationRequest` (`authService.ts` lines 109-116). -/
structure PagePdfGenerationRequest where
  title : String
  blocks : List Block
  letterhead : LetterheadData
  properties : List (String × String)
  hiddenProperties : List String
deriving Repr

/-- The title-heading interpolation of the page body template
(`authService.ts` line 274, `pdfGenerator.ts` line 171):
`` request.title && request.title !== 'Untitled' ? `<h1 class="page-title">...</h1>` : '' ``. -/
def titleHeadingHtml (title : String) : String :=
  if title ≠ "" ∧ title ≠ "Untitled" then
    "<h1 class=\"page-title\">" ++ title ++ "</h1>"
  else ""

/-- The constant chunks of the page document template
(`authService.ts` lines 193-281, identical to `pdfGenerator.ts` lines
90-178), in order around the six interpolation slots. -/
def pageDocChunk0 : String :=
  "\n    <!DOCTYPE html>\n    <html lang=\"en\">\n    <head>\n      <meta charset=\"UTF-8\">\n      <meta name=\"viewport\" content=\"width=device-width, initial-scale=1.0\">\n      <title>"

def pageDocChunk1 : String :=
  "</title>\n      "

def pageDocChunk2 : String :=
  "\n      <style>\n        .letterhead \x7b\n          margin-bottom: 2em;\n        \x7d\n\n        .letterhead-content \x7b\n          display: flex;\n          align-items: flex-start;\n          gap: 1em;\n        \x7d\n\n        .letterhead-logo \x7b\n          max-width: 120px;\n          max-height: 80px;\n          object-fit: contain;\n        \x7d\n\n        .letterhead-info \x7b\n          flex: 1;\n        \x7d\n\n        .company-name \x7b\n          font-size: 1.5em;\n          font-weight: 700;\n          color: #1a1a1a;\n          margin-bottom: 0.3em;\n        \x7d\n\n        .contact-line \x7b\n          font-size: 0.9em;\n          color: #6b6b6b;\n          margin: 0.2em 0;\n        \x7d\n\n        .letterhead-divider \x7b\n          border-top: 2px solid #e0e0e0;\n          margin-top: 1em;\n        \x7d\n\n        .properties-section \x7b\n          background: #f9f9f9;\n          border: 1px solid #e9e9e7;\n          border-radius: 4px;\n          padding: 1em;\n          margin: 1.5em 0;\n        \x7d\n\n        .property-row \x7b\n          display: flex;\n          margin: 0.4em 0;\n          font-size: 0.9em;\n        \x7d\n\n        .property-label \x7b\n          font-weight: 600;\n          color: #6b6b6b;\n          min-width: 140px;\n        \x7d\n\n        .property-value \x7b\n          color: #37352f;\n        \x7d\n\n        .page-title \x7b\n          font-size: 2.5em;\n          font-weight: 700;\n          margin: 0.5em 0 1em 0;\n          color: #1a1a1a;\n        \x7d\n      </style>\n    </head>\n    <body>\n      "

def pageDocChunk3 : String :=
  "\n      "

def pageDocChunk4 : String :=
  "\n      "

def pageDocChunk5 : String :=
  "\n      <div class=\"content\">\n        "

def pageDocChunk6 : String :=
  "\n      </div>\n    </body>\n    </html>\n  "

/-- The page document template with its title-heading slot made
explicit: this is the template of `generatePageHtmlDocument` with the
heading interpolation passed in as `titleHeading`.  It makes visible
what the composed page always contains: the letterhead fragment and the
`<div class="content">` wrapper around the rendered blocks. -/
def composedPageDocument (request : PagePdfGenerationRequest) (titleHeading : String) : String :=
  pageDocChunk0 ++ request.title
  ++ pageDocChunk1 ++ getStyles
  ++ pageDocChunk2 ++ generateLetterheadHtml request.letterhead
  ++ pageDocChunk3 ++ titleHeading
  ++ pageDocChunk4 ++ generatePropertiesHtml request.properties request.hiddenProperties
  ++ pageDocChunk5 ++ renderBlocks request.blocks
  ++ pageDocChunk6

/-- `generatePageHtmlDocument` (`authService.ts` lines 188-282,
identical to `generateHtmlDocument` in `pdfGenerator.ts` lines 85-179):
letterhead, title heading (suppressed for a falsy title and for the
literal sentinel `"Untitled"`), properties panel, and content wrapper
assembled into one HTML document. -/
def generatePageHtmlDocument (request : PagePdfGenerationRequest) : String :=
  let letterheadHtml := generateLetterheadHtml request.letterhead
  let propertiesHtml := generatePropertiesHtml request.properties request.hiddenProperties
  let contentHtml := renderBlocks request.blocks
  pageDocChunk0 ++ request.title
  ++ pageDocChunk1 ++ getStyles
  ++ pageDocChunk2 ++ letterheadHtml
  ++ pageDocChunk3 ++ titleHeadingHtml request.title
  ++ pageDocChunk4 ++ propertiesHtml
  ++ pageDocChunk5 ++ contentHtml
  ++ pageDocChunk6
/-- One database row (`notionService.ts` `DatabaseRow` /
`PreviewDocument.tsx` row objects): the per-column display strings,
modelled as an ordered association list (JavaScript object key order). -/
structure DbRow where
  properties : List (String × String)
deriving Repr, DecidableEq

/-- A database resource (`notionService.ts` `NotionDatabaseData`, also
the `database` variant of the client\x27s `NotionResourceData`): title,
optional icon, the column schema as an ordered association list mapping
column name to its declared type (the schema\x27s `id` field is not read
by any renderer and is omitted), and the ordered rows. -/
structure DbResource where
  title : String
  icon : Option String
  schema : List (String × String)
  rows : List DbRow
deriving Repr, DecidableEq

/-- `escapeHtml` (`PreviewDocument.tsx` lines 87-91): the source writes
the text into a detached `div` via `textContent` and reads back
`innerHTML`; modelled as the standard HTML text-node serialization,
escaping `&`, `<` and `>`. -/
def escapeHtml (text : String) : String :=
  joinStrings (text.data.map (fun c =>
    if c = '&' then "&amp;"
    else if c = '<' then "&lt;"
    else if c = '>' then "&gt;"
    else String.singleton c))

/-- `generateDatabaseTableHtml` (`PreviewDocument.tsx` lines 47-85).
The guard for a non-database resource is outside the model (`DbResource`
only models database resources).  Visible columns are the keys of the
first row\x27s `properties` object (`resource.rows?.[0]?.properties ||
\x7b\x7d`) minus the hidden columns; the default icon and the empty-cell
marker are the exact character sequences found in the source file
(U+00F0 U+0178 U+201C U+0160 and U+00E2 U+20AC U+201D). -/
def generateDatabaseTableHtml (resource : DbResource) (hiddenColumns : List String) : String :=
  let visibleColumns := (match resource.rows with
    | [] => []
    | row :: _ => row.properties.map Prod.fst).filter (fun col => !hiddenColumns.contains col)
  if visibleColumns.isEmpty then
    "<p><em>No columns to display (all columns are hidden)</em></p>"
  else
    "<div class=\"database-container\">\n"
    ++ "  <h2 class=\"database-title\">" ++ orDefault resource.icon "\u00F0\u0178\u201C\u0160"
    ++ " " ++ escapeHtml resource.title ++ "</h2>\n"
    ++ "  <table class=\"notion-database\">\n"
    ++ "    <thead>\n      <tr>\n"
    ++ joinStrings (visibleColumns.map (fun col =>
        "        <th data-type=\"" ++ orDefault (resource.schema.lookup col) "text" ++ "\">"
        ++ escapeHtml col ++ "</th>\n"))
    ++ "      </tr>\n    </thead>\n"
    ++ "    <tbody>\n"
    ++ joinStrings (resource.rows.enum.map (fun p =>
        let rowClass := if p.1 % 2 = 0 then "even" else "odd"
        "      <tr class=\"" ++ rowClass ++ "\">\n"
        ++ joinStrings (visibleColumns.map (fun col =>
            let value := orDefault (p.2.properties.lookup col) ""
            "        <td data-type=\"" ++ orDefault (resource.schema.lookup col) "text" ++ "\">"
            ++ (if value ≠ "" then escapeHtml value
                else "<span class=\"empty-cell\">\u00E2\u20AC\u201D</span>")
            ++ "</td>\n"))
        ++ "      </tr>\n"))
    ++ "    </tbody>\n  </table>\n</div>\n"

/-- Modelled from the spec: the cell formatter of the server-side
tabular renderer.  `server/src/services/databaseRenderer.ts` is imported
by `authService.ts` but its source is not in the repository snapshot;
this follows spec section 4.4: dispatch on the column\x27s declared kind,
url/email/phone become typed hyperlinks wrapping the escaped value,
boolean becomes a checked/unchecked glyph from the normalized "Yes"/"No"
display string, single-choice/status one tag chip, multi-choice one chip
per `", "`-separated token, all other kinds escaped plain text, and an
empty value a distinguishable em-dash marker. -/
def renderDatabaseTableCell (kind value : String) : String :=
  if value = "" then "<span class=\"empty-cell\">—</span>"
  else if kind = "url" then
    "<a href=\"" ++ escapeHtml value ++ "\">" ++ escapeHtml value ++ "</a>"
  else if kind = "email" then
    "<a href=\"mailto:" ++ escapeHtml value ++ "\">" ++ escapeHtml value ++ "</a>"
  else if kind = "phone_number" then
    "<a href=\"tel:" ++ escapeHtml value ++ "\">" ++ escapeHtml value ++ "</a>"
  else if kind = "checkbox" then
    (if value = "Yes" then "☑" else "☐")
  else if kind = "select" ∨ kind = "status" then
    "<span class=\"tag\">" ++ escapeHtml value ++ "</span>"
  else if kind = "multi_select" then
    joinStrings ((value.splitOn ", ").map (fun tok => "<span class=\"tag\">" ++ escapeHtml tok ++ "</span>"))
  else escapeHtml value

/-- Modelled from the spec: `renderDatabaseTable` of the missing
`server/src/services/databaseRenderer.ts`, following spec section 4.4:
visible columns are the schema columns minus the hidden ones in schema
order; zero visible columns yield an explicit "no columns to display"
message and no table; zero rows yield the table header with an explicit
empty row in place of a body; otherwise one row per input row in input
order with alternating positional classes. -/
def renderDatabaseTable (database : DbResource) (hiddenColumns : List String) : String :=
  let visibleColumns := database.schema.filter (fun col => !hiddenColumns.contains col.1)
  if visibleColumns.isEmpty then
    "<p><em>No columns to display</em></p>"
  else
    let headerRow := "<tr>"
      ++ joinStrings (visibleColumns.map (fun col => "<th>" ++ escapeHtml col.1 ++ "</th>"))
      ++ "</tr>"
    let body :=
      if database.rows.isEmpty then
        "<tr class=\"empty-row\"><td colspan=\"" ++ toString visibleColumns.length
          ++ "\"><em>No rows</em></td></tr>"
      else
        joinStrings (database.rows.enum.map (fun p =>
          let rowClass := if p.1 % 2 = 0 then "even" else "odd"
          "<tr class=\"" ++ rowClass ++ "\">"
          ++ joinStrings (visibleColumns.map (fun col =>
              "<td>" ++ renderDatabaseTableCell col.2 (orDefault (p.2.properties.lookup col.1) "")
              ++ "</td>"))
          ++ "</tr>"))
    "<div class=\"database-container\"><h2 class=\"database-title\">"
    ++ orDefault database.icon "📊" ++ " " ++ escapeHtml database.title
    ++ "</h2><table class=\"notion-database\"><thead>" ++ headerRow
    ++ "</thead><tbody>" ++ body ++ "</tbody></table></div>"

/-- Modelled from the spec: `getDatabaseStyles` of the missing
`server/src/services/databaseRenderer.ts`.  The spec does not fix its
content; it is a fixed stylesheet constant (any fixed string; nothing
below depends on its content). -/
def getDatabaseStyles : String :=
  ".notion-database td \x7b border: 1px solid #e9e9e7; \x7d"

/-- `DatabasePdfGenerationRequest` (`authService.ts` lines 118-123). -/
structure DatabasePdfGenerationRequest where
  database : DbResource
  letterhead : LetterheadData
  hiddenColumns : List String
deriving Repr

/-- `PdfGenerationRequest` (`authService.ts` line 125): the
discriminated union of page and database requests. -/
inductive PdfGenerationRequest where
  | page (request : PagePdfGenerationRequest)
  | database (request : DatabasePdfGenerationRequest)
deriving Repr

/-- The constant chunks of the database document template
(`authService.ts` lines 287-360), in order around its four interpolation
slots. -/
def dbDocChunk0 : String :=
  "\n    <!DOCTYPE html>\n    <html lang=\"en\">\n    <head>\n      <meta charset=\"UTF-8\">\n      <meta name=\"viewport\" content=\"width=device-width, initial-scale=1.0\">\n      <title>"

def dbDocChunk1 : String :=
  "</title>\n      <style>\n        * \x7b\n          box-sizing: border-box;\n        \x7d\n\n        body \x7b\n          font-family: -apple-system, BlinkMacSystemFont, \x27Segoe UI\x27, \x27Roboto\x27, \x27Helvetica\x27, \x27Arial\x27, sans-serif;\n          font-size: 14px;\n          line-height: 1.6;\n          color: #37352f;\n          max-width: 100%;\n          margin: 0;\n          padding: 2em;\n        \x7d\n\n        .letterhead \x7b\n          margin-bottom: 2em;\n        \x7d\n\n        .letterhead-content \x7b\n          display: flex;\n          align-items: flex-start;\n          gap: 1em;\n        \x7d\n\n        .letterhead-logo \x7b\n          max-width: 120px;\n          max-height: 80px;\n          object-fit: contain;\n        \x7d\n\n        .letterhead-info \x7b\n          flex: 1;\n        \x7d\n\n        .company-name \x7b\n          font-size: 1.5em;\n          font-weight: 700;\n          color: #1a1a1a;\n          margin-bottom: 0.3em;\n        \x7d\n\n        .contact-line \x7b\n          font-size: 0.9em;\n          color: #6b6b6b;\n          margin: 0.2em 0;\n        \x7d\n\n        .letterhead-divider \x7b\n          border-top: 2px solid #e0e0e0;\n          margin-top: 1em;\n        \x7d\n\n        "

def dbDocChunk2 : String :=
  "\n      </style>\n    </head>\n    <body>\n      "

def dbDocChunk3 : String :=
  "\n      "

def dbDocChunk4 : String :=
  "\n    </body>\n    </html>\n  "

/-- `generateDatabaseHtmlDocument` (`authService.ts` lines 287-360):
letterhead plus rendered database table in the fixed document shell. -/
def generateDatabaseHtmlDocument (request : DatabasePdfGenerationRequest) : String :=
  let letterheadHtml := generateLetterheadHtml request.letterhead
  let databaseHtml := renderDatabaseTable request.database request.hiddenColumns
  dbDocChunk0 ++ request.database.title
  ++ dbDocChunk1 ++ getDatabaseStyles
  ++ dbDocChunk2 ++ letterheadHtml
  ++ dbDocChunk3 ++ databaseHtml
  ++ dbDocChunk4

/-- `generateHtmlDocument` (`authService.ts` lines 365-371): dispatch
on the request discriminant. -/
def generateHtmlDocument : PdfGenerationRequest → String
  | .database request => generateDatabaseHtmlDocument request
  | .page request => generatePageHtmlDocument request

/-- One item of the `pages` array accepted by the `POST /api/pdf/batch`
handler (second revision of the PDF routes file, lines 308-400): either
a page item (optional title, blocks, properties) or a database item. -/
inductive BatchItem where
  | page (title : Option String) (blocks : List Block) (properties : List (String × String))
  | database (db : DbResource)
deriving Repr

/-- Filename sanitization in the batch handler:
`title.replace(/[^a-z0-9]/gi, \x27_\x27).toLowerCase()`. -/
def sanitizeTitle (title : String) : String :=
  String.mk ((title.data.map (fun c => if c.isAlpha || c.isDigit then c else '_')).map Char.toLower)

/-- The per-item title of the batch loop:
`` item.title || `Untitled-$\x7bi + 1\x7d` `` for pages,
`` item.title || `Database-$\x7bi + 1\x7d` `` for databases. -/
def batchItemTitle (i : Nat) (item : BatchItem) : String :=
  match item with
  | .page title _ _ => orDefault title ("Untitled-" ++ toString (i + 1))
  | .database db => orDefault (some db.title) ("Database-" ++ toString (i + 1))

/-- The `pdfRequest` built for the i-th batch item (batch handler lines
330-355): the shared letterhead and hidden-field sets are combined with
the item\x27s own payload. -/
def buildBatchRequest (letterhead : LetterheadData) (hiddenProperties hiddenColumns : List String)
    (i : Nat) (item : BatchItem) : PdfGenerationRequest :=
  match item with
  | .page title blocks properties =>
      .page { title := orDefault title ("Untitled-" ++ toString (i + 1)),
              blocks := blocks, letterhead := letterhead,
              properties := properties, hiddenProperties := hiddenProperties }
  | .database db =>
      .database { database := db, letterhead := letterhead, hiddenColumns := hiddenColumns }

/-- The `for` loop of the batch handler (lines 330-370), with
`generatePdf` abstracted as the fallible `render` argument (in the
source it drives the external render engine and may reject).  Each
iteration awaits the render of the current item and appends
`(sanitizedTitle ++ ".pdf", buffer)`; a rejection propagates out of the
loop (the `try`/`catch` around the whole handler turns it into a single
error response, so previously rendered buffers are discarded and the
remaining items are never rendered). -/
def batchLoop {α : Type} (render : PdfGenerationRequest → Except String α)
    (letterhead : LetterheadData) (hiddenProperties hiddenColumns : List String) :
    Nat → List BatchItem → Except String (List (String × α))
  | _, [] => .ok []
  | i, item :: rest =>
    match render (buildBatchRequest letterhead hiddenProperties hiddenColumns i item) with
    | .error e => .error e
    | .ok buffer =>
      match batchLoop render letterhead hiddenProperties hiddenColumns (i + 1) rest with
      | .error e => .error e
      | .ok entries => .ok ((sanitizeTitle (batchItemTitle i item) ++ ".pdf", buffer) :: entries)

/-- The `POST /api/pdf/batch` handler (lines 308-400): after the two
validation guards it runs the render loop; `Except.ok entries` models
the zip archive (entry names with artifacts), `Except.error` models the
single JSON error response produced when any render rejects. -/
def batchHandler {α : Type} (render : PdfGenerationRequest → Except String α)
    (pages : List BatchItem) (letterhead : LetterheadData)
    (hiddenProperties hiddenColumns : List String) : Except String (List (String × α)) :=
  if pages.isEmpty then
    .error "Missing or invalid field: pages must be a non-empty array"
  else if letterhead.companyName = "" then
    .error "Missing required field: letterhead.companyName"
  else
    batchLoop render letterhead hiddenProperties hiddenColumns 0 pages
/-- Applying a list of (annotation selector, opening markup, closing
markup) triples in order, the first entry innermost: the text is
successively wrapped in the markup of every selected annotation. -/
def applyAnnotationsInOrder (order : List ((TextAnnotations → Bool) × String × String))
    (textItem : TextItem) : String :=
  order.foldl
    (fun text sel => if sel.1 textItem.annotations then sel.2.1 ++ text ++ sel.2.2 else text)
    textItem.plain_text

/-- Wrapping the fully formatted label in a hyperlink when `href` is
truthy (the outermost step of both the source and the spec ordering). -/
def wrapLinkOutermost (textItem : TextItem) (text : String) : String :=
  if isTruthy textItem.href then "<a href=\"" ++ strVal textItem.href ++ "\">" ++ text ++ "</a>"
  else text

/-- The annotation precedence asserted by the spec (section 4.1),
innermost first: monospace, then bold, then italic, then strikethrough,
then underline. -/
def specClaimedOrder : List ((TextAnnotations → Bool) × String × String) :=
  [(TextAnnotations.code, "<code>", "</code>"), (TextAnnotations.bold, "<strong>", "</strong>"),
   (TextAnnotations.italic, "<em>", "</em>"), (TextAnnotations.strikethrough, "<s>", "</s>"),
   (TextAnnotations.underline, "<u>", "</u>")]

/-- The annotation precedence the source implements
(`templateRenderer.ts` lines 33-47), innermost first: bold, then italic,
then strikethrough, then underline, then monospace. -/
def sourceOrder : List ((TextAnnotations → Bool) × String × String) :=
  [(TextAnnotations.bold, "<strong>", "</strong>"), (TextAnnotations.italic, "<em>", "</em>"),
   (TextAnnotations.strikethrough, "<s>", "</s>"), (TextAnnotations.underline, "<u>", "</u>"),
   (TextAnnotations.code, "<code>", "</code>")]

/-- The list grouping pass as described by the spec (section 4.3),
stated as run chunking: a maximal run of same-kind list-item fragments
becomes exactly one container, any other fragment is emitted unchanged,
and order is preserved. -/
def groupSpec : List String → List String
  | [] => []
  | block :: rest =>
    match classify block with
    | none => block :: groupSpec rest
    | some k =>
      renderListContainer k (block :: rest.takeWhile (fun x => decide (classify x = some k))) ::
        groupSpec (rest.dropWhile (fun x => decide (classify x = some k)))
termination_by l => l.length
decreasing_by
  all_goals simp_wf
  all_goals exact Nat.lt_succ_of_le (List.Sublist.length_le (List.dropWhile_sublist _))

/-- A minimal letterhead used for concrete instantiations. -/
def sampleLetterhead : LetterheadData :=
  { logoUrl := none, companyName := "Acme", address := none, phone := none, email := none }

/-- A concrete render function for exercising the batch handler: the
render of the page titled "two" fails, every other render succeeds and
returns the request title as its artifact. -/
def sampleRender : PdfGenerationRequest → Except String String
  | .page request => if request.title = "two" then .error "boom" else .ok request.title
  | .database request => .ok request.database.title

/-- A concrete batch of three page requests titled "one", "two",
"three". -/
def sampleBatch : List BatchItem :=
  [BatchItem.page (some "one") [] [], BatchItem.page (some "two") [] [],
   BatchItem.page (some "three") [] []]
/-- Loop invariant of `groupLists`: started with no open list it agrees
with the run-chunking specification, and started with an open list of
kind `t` holding `items` it first extends that run with the maximal
`t`-classified prefix, emits it, and continues as the specification. -/
theorem groupListsAux_spec (n : Nat) :
    ∀ bs : List String, bs.length ≤ n →
      (groupListsAux none bs = groupSpec bs) ∧
      (∀ t items, groupListsAux (some (t, items)) bs =
        renderListContainer t (items ++ bs.takeWhile (fun x => decide (classify x = some t))) ::
          groupSpec (bs.dropWhile (fun x => decide (classify x = some t)))) := by
  induction n with
  | zero =>
    intro bs hbs
    have hnil : bs = [] := List.length_eq_zero.mp (Nat.le_zero.mp hbs)
    subst hnil
    exact ⟨by simp [groupListsAux, groupSpec], fun t items => by simp [groupListsAux, groupSpec]⟩
  | succ n ih =>
    intro bs hbs
    cases bs with
    | nil => exact ⟨by simp [groupListsAux, groupSpec], fun t items => by simp [groupListsAux, groupSpec]⟩
    | cons b rest =>
      have hrest : rest.length ≤ n := by
        simpa using Nat.lt_succ_iff.mp (Nat.lt_of_lt_of_le (by simp) hbs)
      constructor
      · cases hcb : classify b with
        | none =>
          simp [groupListsAux, groupSpec, hcb, (ih rest hrest).1]
        | some k =>
          have h2 := (ih rest hrest).2 k [b]
          simp [groupListsAux, groupSpec, hcb, h2]
      · intro t items
        cases hcb : classify b with
        | none =>
          have hfalse : decide (classify b = some t) = false := by simp [hcb]
          simp [groupListsAux, groupSpec, hcb, hfalse, List.takeWhile_cons,
            List.dropWhile_cons, (ih rest hrest).1]
        | some k =>
          by_cases hkt : k = t
          · subst hkt
            have htrue : decide (classify b = some k) = true := by simp [hcb]
            have h2 := (ih rest hrest).2 k (items ++ [b])
            simp [groupListsAux, hcb, htrue, List.takeWhile_cons, List.dropWhile_cons, h2]
          · have hfalse : decide (classify b = some t) = false := by simp [hcb, hkt]
            have h2 := (ih rest hrest).2 k [b]
            simp [groupListsAux, groupSpec, hcb, hkt, hfalse, List.takeWhile_cons,
              List.dropWhile_cons, h2]

/-- `groupLists` computes exactly the run chunking described by the
spec. -/
theorem groupLists_eq_groupSpec (bs : List String) : groupLists bs = groupSpec bs :=
  (groupListsAux_spec bs.length bs (Nat.le_refl _)).1
/-- Every element of the chunked output is either a list container whose
items all classify as its kind, or a fragment that is not a list
item. -/
theorem groupSpec_shape (n : Nat) :
    ∀ bs : List String, bs.length ≤ n → ∀ out ∈ groupSpec bs,
      (∃ t items, items ≠ [] ∧ out = renderListContainer t items ∧
        ∀ i ∈ items, classify i = some t) ∨
      classify out = none := by
  induction n with
  | zero =>
    intro bs hbs out hout
    have hnil : bs = [] := List.length_eq_zero.mp (Nat.le_zero.mp hbs)
    subst hnil
    simp [groupSpec] at hout
  | succ n ih =>
    intro bs hbs out hout
    cases bs with
    | nil => simp [groupSpec] at hout
    | cons b rest =>
      have hrest : rest.length ≤ n := by
        simpa using Nat.lt_succ_iff.mp (Nat.lt_of_lt_of_le (by simp) hbs)
      cases hcb : classify b with
      | none =>
        rw [groupSpec, hcb] at hout
        rcases List.mem_cons.mp hout with hb | htail
        · exact Or.inr (hb ▸ hcb)
        · exact ih rest hrest out htail
      | some k =>
        rw [groupSpec, hcb] at hout
        rcases List.mem_cons.mp hout with hb | htail
        · refine Or.inl ⟨k, b :: rest.takeWhile (fun x => decide (classify x = some k)), by simp, hb, ?_⟩
          intro i hi
          rcases List.mem_cons.mp hi with hib | hitw
          · exact hib ▸ hcb
          · simpa using List.mem_takeWhile_imp hitw
        · have hlen : (rest.dropWhile (fun x => decide (classify x = some k))).length ≤ n :=
            Nat.le_trans (List.Sublist.length_le (List.dropWhile_sublist _)) hrest
          exact ih _ hlen out htail

/-- Every input fragment that classifies as a list item occurs inside
some container of the chunked output, of the same kind. -/
theorem groupSpec_covers (n : Nat) :
    ∀ bs : List String, bs.length ≤ n → ∀ b k, b ∈ bs → classify b = some k →
      ∃ items, renderListContainer k items ∈ groupSpec bs ∧ b ∈ items := by
  induction n with
  | zero =>
    intro bs hbs b k hb _
    have hnil : bs = [] := List.length_eq_zero.mp (Nat.le_zero.mp hbs)
    subst hnil
    simp at hb
  | succ n ih =>
    intro bs hbs b k hb hcls
    cases bs with
    | nil => simp at hb
    | cons x rest =>
      have hrest : rest.length ≤ n := by
        simpa using Nat.lt_succ_iff.mp (Nat.lt_of_lt_of_le (by simp) hbs)
      cases hcx : classify x with
      | none =>
        rcases List.mem_cons.mp hb with hbx | hbr
        · rw [hbx] at hcls
          rw [hcls] at hcx
          exact absurd hcx (by simp)
        · obtain ⟨items, hmem, hbi⟩ := ih rest hrest b k hbr hcls
          rw [groupSpec, hcx]
          exact ⟨items, List.mem_cons_of_mem _ hmem, hbi⟩
      | some j =>
        rcases List.mem_cons.mp hb with hbx | hbr
        · have hjk : j = k := by
            rw [hbx] at hcls
            rw [hcls] at hcx
            exact (Option.some_inj.mp hcx).symm
          subst hjk
          rw [groupSpec, hcx]
          exact ⟨x :: rest.takeWhile (fun y => decide (classify y = some j)),
            List.mem_cons_self _ _, by simp [hbx]⟩
        · by_cases hbtw : b ∈ rest.takeWhile (fun y => decide (classify y = some j))
          · have hjk : j = k := by
              have hcb : classify b = some j := by simpa using List.mem_takeWhile_imp hbtw
              rw [hcls] at hcb
              exact Option.some_inj.mp hcb.symm
            subst hjk
            rw [groupSpec, hcx]
            exact ⟨x :: rest.takeWhile (fun y => decide (classify y = some j)),
              List.mem_cons_self _ _, List.mem_cons_of_mem _ hbtw⟩
          · have hbdw : b ∈ rest.dropWhile (fun y => decide (classify y = some j)) := by
              have hsplit := List.takeWhile_append_dropWhile
                (fun y => decide (classify y = some j)) rest
              have : b ∈ rest.takeWhile (fun y => decide (classify y = some j)) ++
                  rest.dropWhile (fun y => decide (classify y = some j)) := by
                rw [hsplit]; exact hbr
              rcases List.mem_append.mp this with h | h
              · exact absurd h hbtw
              · exact h
            have hlen : (rest.dropWhile (fun y => decide (classify y = some j))).length ≤ n :=
              Nat.le_trans (List.Sublist.length_le (List.dropWhile_sublist _)) hrest
            obtain ⟨items, hmem, hbi⟩ := ih _ hlen b k hbdw hcls
            rw [groupSpec, hcx]
            exact ⟨items, List.mem_cons_of_mem _ hmem, hbi⟩
/-- C3 (counterexample): the claim fixes monospace as the innermost
annotation.  For the concrete span with both bold and monospace set the
source renders `<code><strong>x</strong></code>` — the monospace markup
is outside the bold markup — while the claimed precedence (monospace
innermost) yields `<strong><code>x</code></strong>`; the two differ. -/
theorem boldCodeNestingMismatch :
    renderRichText [⟨"x", ⟨true, false, false, false, true⟩, none⟩] =
      "<code><strong>x</strong></code>" ∧
    wrapLinkOutermost ⟨"x", ⟨true, false, false, false, true⟩, none⟩
        (applyAnnotationsInOrder specClaimedOrder ⟨"x", ⟨true, false, false, false, true⟩, none⟩) =
      "<strong><code>x</code></strong>" ∧
    renderRichText [⟨"x", ⟨true, false, false, false, true⟩, none⟩] ≠
      wrapLinkOutermost ⟨"x", ⟨true, false, false, false, true⟩, none⟩
        (applyAnnotationsInOrder specClaimedOrder ⟨"x", ⟨true, false, false, false, true⟩, none⟩) :=
  ⟨by decide, by decide, by decide⟩

/-- C3 (amended): annotations are applied in a fixed precedence
independent of which subset is set, but the order is bold innermost,
then italic, then strikethrough, then underline, then monospace, with
the hyperlink outermost — so a link does always wrap the fully formatted
label, and a span with both bold and monospace set renders with the bold
markup inside the monospace markup. -/
theorem renderTextItemPrecedence :
    ∀ textItem : TextItem,
      renderTextItem textItem =
        wrapLinkOutermost textItem (applyAnnotationsInOrder sourceOrder textItem) := by
  intro textItem
  obtain ⟨text, ⟨b1, b2, b3, b4, b5⟩, href⟩ := textItem
  cases b1 <;> cases b2 <;> cases b3 <;> cases b4 <;> cases b5 <;> cases href <;>
    simp [renderTextItem, wrapLinkOutermost, applyAnnotationsInOrder, sourceOrder,
      isTruthy, strVal]

/-- C4: rendering a single block is total (it always yields a string),
any fault raised inside the dispatch body is caught at the block
boundary and replaced by the generic error placeholder, a successful arm
is returned unchanged, and the rendering of one block never affects the
fragments produced for its siblings. -/
theorem renderBlockTotalFaultContained :
    ∀ block : Block,
      (∃ s : String, renderBlock block = s) ∧
      (∀ e, renderBlockBody block = .error e → renderBlock block = errorPlaceholder) ∧
      (∀ s, renderBlockBody block = .ok s → renderBlock block = s) ∧
      (∀ pre post : List Block,
        (pre ++ block :: post).map renderBlock =
          pre.map renderBlock ++ renderBlock block :: post.map renderBlock) := by
  intro block
  refine ⟨⟨renderBlock block, rfl⟩, ?_, ?_, ?_⟩
  · intro e h
    simp [renderBlock, h]
  · intro s h
    simp [renderBlock, h]
  · intro pre post
    simp

/-- C4 (witness): a paragraph block whose payload object is absent
faults inside the dispatch body and renders as the generic error
placeholder. -/
theorem renderBlockTotalFaultContainedWitness :
    renderBlock (Block.paragraph none) = errorPlaceholder :=
  (renderBlockTotalFaultContained (Block.paragraph none)).2.1 () rfl

/-- C5 (counterexample): the placeholder fragment for an unknown block
kind is not filtered out before grouping — only blank fragments are —
so after rendering, the kind tag "foo" occurs in the output of
`renderBlocks`. -/
theorem unknownTagSurvivesGrouping :
    renderBlocks [Block.unknown "foo"] = "<!-- Unknown block type: foo -->" ∧
    containsStr (renderBlocks [Block.unknown "foo"]) "foo" = true :=
  ⟨by decide, by decide⟩

/-- C5 (amended): the placeholder for an unsupported or unknown kind is
an HTML comment fragment carrying the kind tag; it survives the
blank-fragment filter and the grouping pass unchanged and appears
verbatim in the final output markup next to its sibling fragments (it is
invisible only in the displayed HTML, because it is a comment). -/
theorem placeholderRetainedThroughGrouping :
    renderBlocks [Block.unsupported "image",
        Block.paragraph (some [⟨"x", ⟨false, false, false, false, false⟩, none⟩])] =
      "<!-- Unsupported block type: image -->\n<p>x</p>" ∧
    containsStr (renderBlocks [Block.unsupported "image",
        Block.paragraph (some [⟨"x", ⟨false, false, false, false, false⟩, none⟩])]) "image" =
      true :=
  ⟨by decide, by decide⟩

/-- C6: the grouping pass computes exactly the run chunking of the
input — each maximal run of same-kind list items becomes exactly one
container (so adjacent same-kind items collapse, and a kind change or an
intervening non-list fragment starts a new container), non-list
fragments pass through unchanged, and relative order is preserved — and
on the concrete sequence [bullet, bullet, paragraph, bullet] it yields
exactly two distinct bulleted containers with the paragraph unwrapped
between them. -/
theorem groupListsCollapsesRuns :
    (∀ bs : List String, groupLists bs = groupSpec bs) ∧
    groupLists ["<li>a</li>", "<li>b</li>", "<p>c</p>", "<li>d</li>"] =
      ["<ul><li>a</li><li>b</li></ul>", "<p>c</p>", "<ul><li>d</li></ul>"] :=
  ⟨groupLists_eq_groupSpec, by decide⟩

/-- C9: the grouping output never contains a bare list-item fragment:
every output element is either a list container wrapping a nonempty run
of same-kind list items, or a fragment that is not a list item; and
every list-item fragment of the input ends up inside some emitted
container of its kind (the end-of-sequence flush guarantees this also
for a trailing run). -/
theorem groupListsNoBareListItems :
    (∀ (bs : List String) (out : String), out ∈ groupLists bs →
      (∃ t items, items ≠ [] ∧ out = renderListContainer t items ∧
        ∀ i ∈ items, classify i = some t) ∨
      classify out = none) ∧
    (∀ (bs : List String) (b : String) (k : ListKind), b ∈ bs → classify b = some k →
      ∃ items, renderListContainer k items ∈ groupLists bs ∧ b ∈ items) := by
  constructor
  · intro bs out hout
    rw [groupLists_eq_groupSpec] at hout
    exact groupSpec_shape bs.length bs (Nat.le_refl _) out hout
  · intro bs b k hb hcls
    rw [groupLists_eq_groupSpec]
    exact groupSpec_covers bs.length bs (Nat.le_refl _) b k hb hcls

/-- C9 (witness): instantiating both parts on the singleton input
["<li>a</li>"], whose grouped output is the single container
"<ul><li>a</li></ul>". -/
theorem groupListsNoBareListItemsWitness :
    ((∃ t items, items ≠ [] ∧ "<ul><li>a</li></ul>" = renderListContainer t items ∧
        ∀ i ∈ items, classify i = some t) ∨
      classify "<ul><li>a</li></ul>" = none) ∧
    (∃ items, renderListContainer ListKind.ul items ∈ groupLists ["<li>a</li>"] ∧
      "<li>a</li>" ∈ items) :=
  ⟨groupListsNoBareListItems.1 ["<li>a</li>"] "<ul><li>a</li></ul>" (by decide),
   groupListsNoBareListItems.2 ["<li>a</li>"] "<li>a</li>" ListKind.ul (by decide) (by decide)⟩
set_option maxRecDepth 8192 in
/-- C1: for the letterhead whose company name is "Acme <Corp>", the
letterhead markup produced by the server-side composer contains the raw
substring "<Corp>" and does not contain the escaped form
"Acme &lt;Corp&gt;" — the composer interpolates every field verbatim,
with no escaping. -/
theorem letterheadEmbedsRawCompanyName :
    containsStr (generateLetterheadHtml
      { logoUrl := none, companyName := "Acme <Corp>", address := none,
        phone := none, email := none }) "<Corp>" = true ∧
    containsStr (generateLetterheadHtml
      { logoUrl := none, companyName := "Acme <Corp>", address := none,
        phone := none, email := none }) "Acme &lt;Corp&gt;" = false :=
  ⟨by decide, by decide⟩

/-- C7 (counterexample): a database with one schema column and zero rows
renders as the zero-columns message — with no table, no header cell and
no empty-state row — because the renderer derives its visible columns
from the first row rather than from the schema. -/
theorem zeroRowsNoColumnsMessage :
    generateDatabaseTableHtml
        { title := "Tasks", icon := none, schema := [("Name", "title")], rows := [] } [] =
      "<p><em>No columns to display (all columns are hidden)</em></p>" ∧
    containsStr (generateDatabaseTableHtml
        { title := "Tasks", icon := none, schema := [("Name", "title")], rows := [] } [])
      "<th" = false :=
  ⟨by decide, by decide⟩

/-- C7 (amended): for every database request with zero rows — whatever
the schema and hidden-column set — the tabular renderer emits the
explicit "No columns to display (all columns are hidden)" message and no
table at all, since visible columns are derived from the first row and
there is none. -/
theorem zeroRowsAlwaysNoColumnsMessage :
    ∀ (title : String) (icon : Option String) (schema : List (String × String))
      (hiddenColumns : List String),
      generateDatabaseTableHtml
          { title := title, icon := icon, schema := schema, rows := [] } hiddenColumns =
        "<p><em>No columns to display (all columns are hidden)</em></p>" := by
  intro title icon schema hiddenColumns
  simp [generateDatabaseTableHtml]

/-- C8: when the request title equals the sentinel "Untitled" the
composed page document has an empty title-heading slot, and for every
other non-empty title the heading is emitted; in both cases the document
is the fixed template around the slot, which always contains the
letterhead fragment (chunk 2 is followed by `generateLetterheadHtml`)
and the content wrapper (chunk 5 ends with the opening
`<div class="content">`). -/
theorem untitledSuppressesHeading :
    (∀ request : PagePdfGenerationRequest, request.title = "Untitled" →
      generatePageHtmlDocument request = composedPageDocument request "") ∧
    (∀ request : PagePdfGenerationRequest, request.title ≠ "" → request.title ≠ "Untitled" →
      generatePageHtmlDocument request =
        composedPageDocument request ("<h1 class=\"page-title\">" ++ request.title ++ "</h1>")) ∧
    containsStr pageDocChunk5 "<div class=\"content\">" = true := by
  refine ⟨?_, ?_, by decide⟩
  · intro request h
    simp [generatePageHtmlDocument, composedPageDocument, titleHeadingHtml, h]
  · intro request h1 h2
    simp [generatePageHtmlDocument, composedPageDocument, titleHeadingHtml, h1, h2]

/-- C8 (witness): the concrete request with title "Untitled" and no
blocks instantiates the suppression case: the document equals the
template with an empty heading slot (letterhead and content wrapper
still present). -/
theorem untitledSuppressesHeadingWitness :
    generatePageHtmlDocument
        { title := "Untitled", blocks := [], letterhead := sampleLetterhead,
          properties := [], hiddenProperties := [] } =
      composedPageDocument
        { title := "Untitled", blocks := [], letterhead := sampleLetterhead,
          properties := [], hiddenProperties := [] } "" :=
  untitledSuppressesHeading.1 _ rfl

/-- C10: the document generation pipeline is a pure function of its
request — every stage of the embedding (rich text composition, block
rendering, grouping, property projection, letterhead and document
assembly) is a deterministic function with no ambient state, so two
invocations on equal requests produce identical output strings. -/
theorem generateHtmlDocumentDeterministic :
    ∀ (request₁ request₂ : PdfGenerationRequest), request₁ = request₂ →
      generateHtmlDocument request₁ = generateHtmlDocument request₂ := by
  intro request₁ request₂ h
  rw [h]

/-- C10 (witness): two invocations on the same concrete page request
agree. -/
theorem generateHtmlDocumentDeterministicWitness :
    generateHtmlDocument (PdfGenerationRequest.page
      { title := "T", blocks := [], letterhead := sampleLetterhead,
        properties := [], hiddenProperties := [] }) =
    generateHtmlDocument (PdfGenerationRequest.page
      { title := "T", blocks := [], letterhead := sampleLetterhead,
        properties := [], hiddenProperties := [] }) :=
  generateHtmlDocumentDeterministic _ _ rfl
/-- Unfolding equation of `batchLoop` on the empty list. -/
theorem batchLoop_nil {α : Type} (render : PdfGenerationRequest → Except String α)
    (letterhead : LetterheadData) (hiddenProperties hiddenColumns : List String) (i : Nat) :
    batchLoop render letterhead hiddenProperties hiddenColumns i [] = .ok [] := rfl

/-- Unfolding equation of `batchLoop` on a nonempty list. -/
theorem batchLoop_cons {α : Type} (render : PdfGenerationRequest → Except String α)
    (letterhead : LetterheadData) (hiddenProperties hiddenColumns : List String) (i : Nat)
    (item : BatchItem) (rest : List BatchItem) :
    batchLoop render letterhead hiddenProperties hiddenColumns i (item :: rest) =
      match render (buildBatchRequest letterhead hiddenProperties hiddenColumns i item) with
      | .error e => .error e
      | .ok buffer =>
        match batchLoop render letterhead hiddenProperties hiddenColumns (i + 1) rest with
        | .error e => .error e
        | .ok entries => .ok ((sanitizeTitle (batchItemTitle i item) ++ ".pdf", buffer) :: entries) :=
  rfl

/-- If the loop renders a prefix successfully and the next item fails to
render, the whole loop returns that failure (items after the failing one
are never reached, and the successful entries are discarded). -/
theorem batchLoopFailFastAux {α : Type} (render : PdfGenerationRequest → Except String α)
    (letterhead : LetterheadData) (hiddenProperties hiddenColumns : List String) :
    ∀ (pre : List BatchItem) (i : Nat) (item : BatchItem) (rest : List BatchItem)
      (entries : List (String × α)) (e : String),
      batchLoop render letterhead hiddenProperties hiddenColumns i pre = .ok entries →
      render (buildBatchRequest letterhead hiddenProperties hiddenColumns (i + pre.length) item) =
        .error e →
      batchLoop render letterhead hiddenProperties hiddenColumns i (pre ++ item :: rest) =
        .error e := by
  intro pre
  induction pre with
  | nil =>
    intro i item rest entries e _ hfail
    have hfail0 : render (buildBatchRequest letterhead hiddenProperties hiddenColumns i item) =
        .error e := by simpa using hfail
    simp [batchLoop_cons, hfail0]
  | cons p ps ih =>
    intro i item rest entries e hok hfail
    cases hro : render (buildBatchRequest letterhead hiddenProperties hiddenColumns i p) with
    | error f =>
      rw [batchLoop_cons, hro] at hok
      exact absurd hok (by simp)
    | ok buffer =>
      rw [batchLoop_cons, hro] at hok
      cases hloop : batchLoop render letterhead hiddenProperties hiddenColumns (i + 1) ps with
      | error f =>
        rw [hloop] at hok
        exact absurd hok (by simp)
      | ok others =>
        have hfail2 : render (buildBatchRequest letterhead hiddenProperties hiddenColumns
            (i + 1 + ps.length) item) = .error e := by
          have harith : i + 1 + ps.length = i + (p :: ps).length := by
            simp [List.length_cons]
            omega
          rw [harith]
          exact hfail
        have htail := ih (i + 1) item rest others e hloop hfail2
        rw [List.cons_append, batchLoop_cons, hro, htail]

/-- C2 (counterexample): for the concrete batch of three page requests
where the render of the second fails, the batch handler returns the
single error — it does not return an archive, in particular not one
containing exactly the first and third artifacts with a failure report. -/
theorem batchAbortsOnSecondFailure :
    batchHandler sampleRender sampleBatch sampleLetterhead [] [] = Except.error "boom" ∧
    batchHandler sampleRender sampleBatch sampleLetterhead [] [] ≠
      Except.ok [("one.pdf", "one"), ("three.pdf", "three")] := by
  constructor
  · rfl
  · intro h
    rw [show batchHandler sampleRender sampleBatch sampleLetterhead [] [] =
        Except.error "boom" from rfl] at h
    exact Except.noConfusion h

/-- C2 (amended): the batch coordinator is fail-fast for the whole
batch: when every request before some item renders successfully and
that item's render fails, the handler returns the failure alone — the
loop stops, no archive is produced, the artifacts already rendered are
discarded and the remaining requests are never rendered. -/
theorem batchFailureAbortsWholeBatch {α : Type}
    (render : PdfGenerationRequest → Except String α)
    (letterhead : LetterheadData) (hiddenProperties hiddenColumns : List String)
    (pre : List BatchItem) (item : BatchItem) (rest : List BatchItem)
    (entries : List (String × α)) (e : String)
    (hname : letterhead.companyName ≠ "")
    (hok : batchLoop render letterhead hiddenProperties hiddenColumns 0 pre = .ok entries)
    (hfail : render (buildBatchRequest letterhead hiddenProperties hiddenColumns
      pre.length item) = .error e) :
    batchHandler render (pre ++ item :: rest) letterhead hiddenProperties hiddenColumns =
      .error e := by
  have hne : (pre ++ item :: rest).isEmpty = false := by
    cases pre <;> simp
  have hfail0 : render (buildBatchRequest letterhead hiddenProperties hiddenColumns
      (0 + pre.length) item) = .error e := by simpa using hfail
  rw [batchHandler]
  simp only [hne, Bool.false_eq_true, if_false, hname, if_neg]
  exact batchLoopFailFastAux render letterhead hiddenProperties hiddenColumns
    pre 0 item rest entries e hok hfail0

/-- C2 (witness): instantiating the fail-fast theorem on the concrete
batch [one, two, three] where the render of "two" fails. -/
theorem batchFailureAbortsWholeBatchWitness :
    batchHandler sampleRender
      ([BatchItem.page (some "one") [] []] ++
        BatchItem.page (some "two") [] [] :: [BatchItem.page (some "three") [] []])
      sampleLetterhead [] [] = Except.error "boom" :=
  batchFailureAbortsWholeBatch sampleRender sampleLetterhead [] []
    [BatchItem.page (some "one") [] []] (BatchItem.page (some "two") [] [])
    [BatchItem.page (some "three") [] []] [("one.pdf", "one")] "boom"
    (by decide) rfl rfl
